import Mathlib

/-!
Shallow embedding of `predictive-youtube.py`, a one-shot script that lists the
recent videos of a channel, fetches per-video statistics, assembles a table with a
derived `engagement_rate` column and hands it to a linear-regression routine.

The two API-calling functions are embedded as pure functions of the API
response they receive; the request parameters the script sends (`maxResults=50`,
`order=date`, `part=...`) are recorded as constants.  Python floats are
modelled as exact rationals, except where the script can produce IEEE
non-finite values, which are modelled by the three-way type `PFloat`.
Fallible code returns `Except`/`Option`; an `Except.error` constructor records
which concrete Python exception the interpreter would raise there.
-/

namespace PredictiveYoutube

/-- One item of the `search().list` response, as the script reads it:
`item.id.videoId`, `item.snippet.title`,
`item.snippet.publishedAt`. -/
structure SearchItem where
  videoId : String
  title : String
  publishedAt : String
deriving DecidableEq, Repr

/-- The record appended to `video_data` for each response item
(lines 51-55 of the script). -/
structure VideoSummary where
  video_id : String
  title : String
  publishedAt : String
deriving DecidableEq, Repr

/-- The `maxResults` parameter the script passes to `youtube.search().list`
(line 42). -/
def searchMaxResults : Nat := 50

/-- The `order` parameter the script passes to `youtube.search().list`
(line 43). -/
def searchOrder : String := "date"

/-- `get_channel_videos`, lines 39-56: iterates over `response.items` in
order and appends one summary dict per item.  The function has no error
handling: an empty `items` list simply yields the empty list. -/
def get_channel_videos (items : List SearchItem) : List VideoSummary :=
  items.map (fun item =>
    { video_id := item.videoId
      title := item.title
      publishedAt := item.publishedAt })

/-! ## Duration parsing

The script calls `isodate.parse_duration(...).total_seconds()` (line 88).
`isodate` matches the string against the ISO-8601 duration grammar
`P...T[nH][nM][nS]` and raises `ISO8601Error` when it does not match — in
particular on the empty string.  We embed the time-only subset of that
grammar, which covers every string the claims mention (`PTnHnMnS`
combinations, `PT0S`, the empty string); date components (`P1DT...`) are outside this
scope of the model.  Integer components only, as in the claims; seconds are
returned as an exact rational standing for the Python float. -/

/-- Value of a list of decimal digit characters, most significant first. -/
def natOfDigits (ds : List Char) : Nat :=
  ds.foldl (fun a c => a * 10 + (c.toNat - 48)) 0

/-- Split off the longest leading run of decimal digits. -/
def takeDigits : List Char → List Char × List Char
  | [] => ([], [])
  | c :: cs =>
    if c.isDigit then
      let p := takeDigits cs
      (c :: p.1, p.2)
    else ([], c :: cs)

/-- Read a non-empty digit run and its value; `none` when the input does not
start with a digit. -/
def munchDigits (cs : List Char) : Option (Nat × List Char) :=
  match takeDigits cs with
  | ([], _) => none
  | (ds, r) => some (natOfDigits ds, r)

/-- Try to read one optional component `<digits><unit>`; on any mismatch the
input is left untouched and the value of the component is 0, mirroring an optional
group of the isodate regex. -/
def tryComp (unit : Char) (cs : List Char) : Nat × List Char :=
  match munchDigits cs with
  | some (n, u :: rest) => if u = unit then (n, rest) else (0, cs)
  | _ => (0, cs)

/-- Seconds denoted by the part after the PT prelude: optional hours, minutes,
seconds, in this order, nothing left over. -/
def parseTimeSeconds (cs : List Char) : Option Nat :=
  let h := tryComp 'H' cs
  let m := tryComp 'M' h.2
  let s := tryComp 'S' m.2
  if s.2 = [] then some (h.1 * 3600 + m.1 * 60 + s.1) else none

/-- `isodate.parse_duration(text).total_seconds()` on the time-only subset:
`none` models the `ISO8601Error` raised on a non-matching string. -/
def parse_duration (text : String) : Option Rat :=
  match text.data with
  | 'P' :: 'T' :: rest => (parseTimeSeconds rest).map (fun n => (n : Rat))
  | _ => none

/-- The statistics part of one `videos().list` response item; `none` models an
absent counter key (the script defaults it to 0 with `.get`). -/
structure VideoStatistics where
  viewCount : Option Nat
  likeCount : Option Nat
  commentCount : Option Nat
deriving DecidableEq, Repr

/-- The contentDetails part of one response item; `none` models an absent
`duration` key. -/
structure VideoContentDetails where
  duration : Option String
deriving DecidableEq, Repr

/-- One item of the `videos().list` response. -/
structure VideoItem where
  statistics : VideoStatistics
  contentDetails : VideoContentDetails
deriving DecidableEq, Repr

/-- A whole `videos().list` response: just its `items` list. -/
structure VideoListResponse where
  items : List VideoItem
deriving DecidableEq, Repr

/-- The statistics dict returned by `get_video_stats` (lines 90-95). -/
structure VideoStats where
  views : Nat
  likes : Nat
  duration : Rat
  comments : Nat
deriving DecidableEq, Repr

/-- How `get_video_stats` can fail.  `indexError` is the unguarded
`response.items[0]` lookup on an empty list (a raw Python `IndexError`);
`malformedDuration` is the `ISO8601Error` escaping from `isodate`.  The script
defines no `VideoNotFoundError`. -/
inductive FetchError where
  | indexError
  | malformedDuration
deriving DecidableEq, Repr

/-- The default string the script supplies for an absent duration key
(line 87). -/
def defaultDurationIso : String := "PT0S"

/-- `get_video_stats`, lines 58-95: reads `response.items[0]` without any
guard, defaults absent counters to 0 and an absent duration key to `PT0S`,
and parses the duration with `isodate`. -/
def get_video_stats (response : VideoListResponse) : Except FetchError VideoStats :=
  match response.items with
  | [] => .error .indexError
  | item :: _ =>
    let duration_iso := item.contentDetails.duration.getD defaultDurationIso
    match parse_duration duration_iso with
    | none => .error .malformedDuration
    | some d =>
      .ok { views := item.statistics.viewCount.getD 0
            likes := item.statistics.likeCount.getD 0
            duration := d
            comments := item.statistics.commentCount.getD 0 }

/-- The duration handling inside `get_video_stats`, isolated: `none` as input
models an absent `duration` key in `contentDetails`, for which the script
supplies `PT0S`; a present key is passed to `isodate` as is. -/
def durationSeconds (d : Option String) : Option Rat :=
  parse_duration (d.getD defaultDurationIso)

/-! ## Module-level assembly (lines 97-122)

The script zips the summary list with the stats list by position
(`videos[i].update(videos_stats[i])`), builds a DataFrame and appends the
column `(df.likes + df.comments) / df.views`.  Pandas performs that
division in IEEE float64, so a zero-view row yields `inf` (positive
numerator) or `nan` (`0/0`); `PFloat` makes those outcomes explicit. -/

/-- One row of the assembled DataFrame: the summary fields together with the
stats fields added by `videos[i].update(videos_stats[i])`. -/
structure VideoRecord where
  video_id : String
  title : String
  publishedAt : String
  views : Nat
  likes : Nat
  duration : Rat
  comments : Nat
deriving DecidableEq, Repr

/-- The merged record for one (summary, stats) pair. -/
def mkRecord (v : VideoSummary) (s : VideoStats) : VideoRecord :=
  { video_id := v.video_id
    title := v.title
    publishedAt := v.publishedAt
    views := s.views
    likes := s.likes
    duration := s.duration
    comments := s.comments }

/-- The positional merge loop, lines 102-103: record `i` combines summary `i`
with stats `i`. -/
def mergeRecords (summaries : List VideoSummary) (stats : List VideoStats) :
    List VideoRecord :=
  List.zipWith mkRecord summaries stats

/-- A pandas float64 cell as the script can produce it: a finite value
(modelled exactly as a rational), positive infinity, or NaN. -/
inductive PFloat where
  | finite (q : Rat)
  | inf
  | nan
deriving DecidableEq, Repr

/-- The per-row value of `(df.likes + df.comments) / df.views`
(line 108) under IEEE float64 semantics: a positive numerator over zero gives
`inf`, `0/0` gives `nan`. -/
def engagement_rate (likes comments views : Nat) : PFloat :=
  if views = 0 then
    if likes + comments = 0 then .nan else .inf
  else
    .finite ((likes + comments : Rat) / (views : Rat))

/-- The whole `engagement_rate` column, in row order.  The script filters
nothing: every assembled row contributes one entry. -/
def engagementColumn (rows : List VideoRecord) : List PFloat :=
  rows.map (fun r => engagement_rate r.likes r.comments r.views)

/-- `y = df[target]` (line 118): the target vector handed to
`train_test_split` and then to `model.fit` is the engagement column itself,
with no exclusion, sentinel check or finiteness guard in between. -/
def regressionTarget (rows : List VideoRecord) : List PFloat :=
  engagementColumn rows

/-- How the train/test split step can fail. -/
inductive TrainError where
  | emptySplit
deriving DecidableEq, Repr

/-- `sklearn.model_selection.train_test_split` with `test_size=0.2` on `n`
samples (external collaborator, modelled from its documented behaviour): the
test partition gets `⌈0.2·n⌉` samples and the train partition the rest, and
the call raises `ValueError` when either partition would be empty — in
particular whenever `n = 0`. -/
def trainTestSplitSizes (n : Nat) : Except TrainError (Nat × Nat) :=
  let nTest := (n + 4) / 5
  let nTrain := n - nTest
  if nTest = 0 ∨ nTrain = 0 then .error .emptySplit else .ok (nTrain, nTest)

/-- The script's trainer step, lines 122-126: it calls `train_test_split` on
the assembled rows unconditionally — there is no emptiness check and no
no-data message anywhere between the DataFrame and the regression library. -/
def trainerStep (rows : List VideoRecord) : Except TrainError (Nat × Nat) :=
  trainTestSplitSizes rows.length

/-! ## Dict-level view of the merge (for the mutation claim)

`videos[i].update(videos_stats[i])` mutates the summary dicts in place.  To
talk about fields being added or modified we embed the dicts themselves:
a Python dict is a key-ordered association list, and `update` overwrites
existing keys in place and appends new ones, as CPython does. -/

/-- A Python value as it occurs in these dicts. -/
inductive PyVal where
  | s (v : String)
  | n (v : Nat)
  | q (v : Rat)
deriving DecidableEq, Repr

/-- A Python dict: insertion-ordered key/value pairs. -/
abbrev PyDict : Type := List (String × PyVal)

/-- `d[k] = v`: overwrite in place when the key exists, append otherwise. -/
def dictSet : PyDict → String → PyVal → PyDict
  | [], k, v => [(k, v)]
  | (k0, v0) :: rest, k, v =>
    if k0 = k then (k0, v) :: rest else (k0, v0) :: dictSet rest k v

/-- `d.update(src)`: set every pair of `src` in order. -/
def dictUpdate (d src : PyDict) : PyDict :=
  src.foldl (fun acc kv => dictSet acc kv.1 kv.2) d

/-- `d.get(k)` as a lookup. -/
def dictLookup (d : PyDict) (k : String) : Option PyVal :=
  (d.find? (fun kv => kv.1 = k)).map (fun kv => kv.2)

/-- The dict `get_channel_videos` builds for one video (lines 51-55). -/
def summaryDict (v : VideoSummary) : PyDict :=
  [("video_id", .s v.video_id), ("title", .s v.title),
   ("publishedAt", .s v.publishedAt)]

/-- The dict `get_video_stats` returns (lines 90-95). -/
def statsDict (s : VideoStats) : PyDict :=
  [("views", .n s.views), ("likes", .n s.likes),
   ("duration", .q s.duration), ("comments", .n s.comments)]

/-- The keys of a dict, in insertion order. -/
def dictKeys (d : PyDict) : List String :=
  d.map (fun kv => kv.1)

/-! ## Rendering PTnHnMnS duration strings

To quantify over every valid `PTnHnMnS` combination we render one from three
optional digit runs (hours, minutes, seconds) and prove the parse recovers
the exact component sum. -/

/-- Render one optional component: its digit run followed by its unit
letter, or nothing. -/
def compStr (unit : Char) : Option (List Char) → List Char
  | none => []
  | some ds => ds ++ [unit]

/-- The duration string `PT` followed by the rendered components. -/
def durStr (h m s : Option (List Char)) : String :=
  ⟨'P' :: 'T' :: (compStr 'H' h ++ (compStr 'M' m ++ compStr 'S' s))⟩

/-- The numeric value of an optional component (0 when absent). -/
def compVal : Option (List Char) → Nat
  | none => 0
  | some ds => natOfDigits ds

/-- A well-formed optional component: absent, or a non-empty run of decimal
digits. -/
def isDigitRun : Option (List Char) → Bool
  | none => true
  | some ds => !ds.isEmpty && ds.all Char.isDigit

lemma isDigitRun_some (ds : List Char) (h : isDigitRun (some ds) = true) :
    ds ≠ [] ∧ ∀ c ∈ ds, c.isDigit = true := by
  simp [isDigitRun] at h
  exact ⟨h.1, h.2⟩

lemma takeDigits_of_run (ds rest : List Char)
    (hds : ∀ c ∈ ds, c.isDigit = true)
    (hrest : ∀ c t, rest = c :: t → c.isDigit = false) :
    takeDigits (ds ++ rest) = (ds, rest) := by
  induction ds with
  | nil =>
    cases rest with
    | nil => rfl
    | cons c t => simp [takeDigits, hrest c t rfl]
  | cons c cs ih =>
    have hc : c.isDigit = true := hds c (by simp)
    have ih2 := ih (fun x hx => hds x (by simp [hx]))
    simp only [List.cons_append, takeDigits, hc, if_true, List.append_eq, ih2]

lemma munchDigits_of_run (ds rest : List Char) (hne : ds ≠ [])
    (hds : ∀ c ∈ ds, c.isDigit = true)
    (hrest : ∀ c t, rest = c :: t → c.isDigit = false) :
    munchDigits (ds ++ rest) = some (natOfDigits ds, rest) := by
  unfold munchDigits
  rw [takeDigits_of_run ds rest hds hrest]
  cases ds with
  | nil => exact absurd rfl hne
  | cons c cs => rfl

lemma munchDigits_nodigit (cs : List Char)
    (h : ∀ c t, cs = c :: t → c.isDigit = false) :
    munchDigits cs = none := by
  cases cs with
  | nil => rfl
  | cons c t =>
    unfold munchDigits takeDigits
    simp [h c t rfl]

lemma tryComp_hit (u : Char) (ds tl : List Char) (hne : ds ≠ [])
    (hds : ∀ c ∈ ds, c.isDigit = true) (hu : u.isDigit = false) :
    tryComp u (ds ++ u :: tl) = (natOfDigits ds, tl) := by
  unfold tryComp
  rw [munchDigits_of_run ds (u :: tl) hne hds
    (fun c t hc => by injection hc with h1 h2; rw [← h1]; exact hu)]
  simp

lemma tryComp_miss_unit (u uu : Char) (ds tl : List Char) (hne : ds ≠ [])
    (hds : ∀ c ∈ ds, c.isDigit = true) (hu : uu.isDigit = false) (hneq : uu ≠ u) :
    tryComp u (ds ++ uu :: tl) = (0, ds ++ uu :: tl) := by
  unfold tryComp
  rw [munchDigits_of_run ds (uu :: tl) hne hds
    (fun c t hc => by injection hc with h1 h2; rw [← h1]; exact hu)]
  simp [hneq]

lemma tryComp_nodigit (u : Char) (cs : List Char)
    (h : ∀ c t, cs = c :: t → c.isDigit = false) :
    tryComp u cs = (0, cs) := by
  unfold tryComp
  rw [munchDigits_nodigit cs h]

lemma parse_duration_PT (rest : List Char) :
    parse_duration ⟨'P' :: 'T' :: rest⟩ =
      (parseTimeSeconds rest).map (fun n => (n : Rat)) := rfl

theorem parse_durStr (h m s : Option (List Char))
    (hh : isDigitRun h = true) (hm : isDigitRun m = true) (hs : isDigitRun s = true) :
    parse_duration (durStr h m s) =
      some (((compVal h * 3600 + compVal m * 60 + compVal s : Nat) : Rat)) := by
  have hH : Char.isDigit 'H' = false := by decide
  have hM : Char.isDigit 'M' = false := by decide
  have hS : Char.isDigit 'S' = false := by decide
  simp only [durStr]
  rw [parse_duration_PT]
  cases h with
  | some hd =>
    obtain ⟨hne1, hd1⟩ := isDigitRun_some hd hh
    cases m with
    | some md =>
      obtain ⟨hne2, hd2⟩ := isDigitRun_some md hm
      cases s with
      | some sd =>
        obtain ⟨hne3, hd3⟩ := isDigitRun_some sd hs
        have e1 : tryComp 'H' (hd ++ 'H' :: (md ++ 'M' :: (sd ++ 'S' :: []))) =
            (natOfDigits hd, md ++ 'M' :: (sd ++ 'S' :: [])) := tryComp_hit _ _ _ hne1 hd1 hH
        have e2 : tryComp 'M' (md ++ 'M' :: (sd ++ 'S' :: [])) =
            (natOfDigits md, sd ++ 'S' :: []) := tryComp_hit _ _ _ hne2 hd2 hM
        have e3 : tryComp 'S' (sd ++ 'S' :: []) = (natOfDigits sd, []) :=
          tryComp_hit _ _ _ hne3 hd3 hS
        simp [compStr, parseTimeSeconds, compVal, e1, e2, e3]
      | none =>
        have e1 : tryComp 'H' (hd ++ 'H' :: (md ++ 'M' :: [])) =
            (natOfDigits hd, md ++ 'M' :: []) := tryComp_hit _ _ _ hne1 hd1 hH
        have e2 : tryComp 'M' (md ++ 'M' :: []) = (natOfDigits md, []) :=
          tryComp_hit _ _ _ hne2 hd2 hM
        have e3 : tryComp 'S' ([] : List Char) = (0, []) :=
          tryComp_nodigit _ _ (fun c t hc => nomatch hc)
        simp [compStr, parseTimeSeconds, compVal, e1, e2, e3]
    | none =>
      cases s with
      | some sd =>
        obtain ⟨hne3, hd3⟩ := isDigitRun_some sd hs
        have e1 : tryComp 'H' (hd ++ 'H' :: (sd ++ 'S' :: [])) =
            (natOfDigits hd, sd ++ 'S' :: []) := tryComp_hit _ _ _ hne1 hd1 hH
        have e2 : tryComp 'M' (sd ++ 'S' :: []) = (0, sd ++ 'S' :: []) :=
          tryComp_miss_unit _ _ _ _ hne3 hd3 hS (by decide)
        have e3 : tryComp 'S' (sd ++ 'S' :: []) = (natOfDigits sd, []) :=
          tryComp_hit _ _ _ hne3 hd3 hS
        simp [compStr, parseTimeSeconds, compVal, e1, e2, e3]
      | none =>
        have e1 : tryComp 'H' (hd ++ 'H' :: []) = (natOfDigits hd, []) :=
          tryComp_hit _ _ _ hne1 hd1 hH
        have e2 : tryComp 'M' ([] : List Char) = (0, []) :=
          tryComp_nodigit _ _ (fun c t hc => nomatch hc)
        have e3 : tryComp 'S' ([] : List Char) = (0, []) :=
          tryComp_nodigit _ _ (fun c t hc => nomatch hc)
        simp [compStr, parseTimeSeconds, compVal, e1, e2, e3]
  | none =>
    cases m with
    | some md =>
      obtain ⟨hne2, hd2⟩ := isDigitRun_some md hm
      cases s with
      | some sd =>
        obtain ⟨hne3, hd3⟩ := isDigitRun_some sd hs
        have e1 : tryComp 'H' (md ++ 'M' :: (sd ++ 'S' :: [])) =
            (0, md ++ 'M' :: (sd ++ 'S' :: [])) :=
          tryComp_miss_unit _ _ _ _ hne2 hd2 hM (by decide)
        have e2 : tryComp 'M' (md ++ 'M' :: (sd ++ 'S' :: [])) =
            (natOfDigits md, sd ++ 'S' :: []) := tryComp_hit _ _ _ hne2 hd2 hM
        have e3 : tryComp 'S' (sd ++ 'S' :: []) = (natOfDigits sd, []) :=
          tryComp_hit _ _ _ hne3 hd3 hS
        simp [compStr, parseTimeSeconds, compVal, e1, e2, e3]
      | none =>
        have e1 : tryComp 'H' (md ++ 'M' :: []) = (0, md ++ 'M' :: []) :=
          tryComp_miss_unit _ _ _ _ hne2 hd2 hM (by decide)
        have e2 : tryComp 'M' (md ++ 'M' :: []) = (natOfDigits md, []) :=
          tryComp_hit _ _ _ hne2 hd2 hM
        have e3 : tryComp 'S' ([] : List Char) = (0, []) :=
          tryComp_nodigit _ _ (fun c t hc => nomatch hc)
        simp [compStr, parseTimeSeconds, compVal, e1, e2, e3]
    | none =>
      cases s with
      | some sd =>
        obtain ⟨hne3, hd3⟩ := isDigitRun_some sd hs
        have e1 : tryComp 'H' (sd ++ 'S' :: []) = (0, sd ++ 'S' :: []) :=
          tryComp_miss_unit _ _ _ _ hne3 hd3 hS (by decide)
        have e2 : tryComp 'M' (sd ++ 'S' :: []) = (0, sd ++ 'S' :: []) :=
          tryComp_miss_unit _ _ _ _ hne3 hd3 hS (by decide)
        have e3 : tryComp 'S' (sd ++ 'S' :: []) = (natOfDigits sd, []) :=
          tryComp_hit _ _ _ hne3 hd3 hS
        simp [compStr, parseTimeSeconds, compVal, e1, e2, e3]
      | none =>
        have e1 : tryComp 'H' ([] : List Char) = (0, []) :=
          tryComp_nodigit _ _ (fun c t hc => nomatch hc)
        have e2 : tryComp 'M' ([] : List Char) = (0, []) :=
          tryComp_nodigit _ _ (fun c t hc => nomatch hc)
        have e3 : tryComp 'S' ([] : List Char) = (0, []) :=
          tryComp_nodigit _ _ (fun c t hc => nomatch hc)
        simp [compStr, parseTimeSeconds, compVal, e1, e2, e3]

/-! ## Concrete inputs used by counterexamples, failing inputs and witnesses -/

/-- A generic search-result item. -/
def exItem : SearchItem :=
  ⟨"vid01", "a title", "2024-05-05T12:00:00Z"⟩

/-- Two search-result items sorted strictly newest-first on publishedAt. -/
def exSortedItems : List SearchItem :=
  [⟨"vid02", "newer", "2024-05-05T12:00:00Z"⟩,
   ⟨"vid03", "older", "2024-01-01T09:30:00Z"⟩]

/-- A generic video summary. -/
def exSummary : VideoSummary :=
  ⟨"vid04", "some title", "2024-03-03T00:00:00Z"⟩

/-- A generic stats record with positive views. -/
def exStatsOne : VideoStats := ⟨120, 7, 95, 3⟩

/-- A stats record with zero views but a positive numerator, the input on
which the engagement division produces IEEE infinity. -/
def zeroViewStats : VideoStats := ⟨0, 1, 30, 0⟩

/-- The three summaries of the end-to-end scenario of the spec. -/
def scenarioSummaries : List VideoSummary :=
  [⟨"s1", "t1", "2024-03-03T00:00:00Z"⟩,
   ⟨"s2", "t2", "2024-02-02T00:00:00Z"⟩,
   ⟨"s3", "t3", "2024-01-01T00:00:00Z"⟩]

/-- The three stats records of the end-to-end scenario of the spec:
views/likes/duration/comments (100, 10, 120, 5), (0, 0, 30, 0) and
(50, 1, 200, 1). -/
def scenarioStats : List VideoStats :=
  [⟨100, 10, 120, 5⟩, ⟨0, 0, 30, 0⟩, ⟨50, 1, 200, 1⟩]

/-- A video-detail response item. -/
def exVideoItem : VideoItem :=
  ⟨⟨some 250, some 12, some 4⟩, ⟨some ("PT2M")⟩⟩

/-- A second, different video-detail response item. -/
def exTailItem : VideoItem := ⟨⟨some 1, none, none⟩, ⟨none⟩⟩

/-- A two-item video-detail response. -/
def exRespA : VideoListResponse := ⟨[exVideoItem, exTailItem]⟩

/-- A one-item video-detail response agreeing with `exRespA` on the first
item. -/
def exRespB : VideoListResponse := ⟨[exVideoItem]⟩

/-! ## The claims -/

/-- C1, counterexample: a present-but-empty duration string does not yield
0.0.  The `.get` default only covers an absent key, so the empty string is
handed to isodate, whose grammar rejects it (`none`, an `ISO8601Error`),
refuting the reading that an absent or empty duration yields 0.0. -/
theorem C1_empty_duration_counterexample :
    durationSeconds (some ("")) = none ∧ durationSeconds (some ("")) ≠ some 0 :=
  ⟨by decide, by decide⟩

/-- C1, amended: every valid duration string of the form PTnHnMnS (any
combination of hour, minute and second components) parses to exactly
H*3600 + M*60 + S seconds; in particular PT1H2M10S yields 3730.0 and PT0S
yields 0.0, and an absent duration key defaults to PT0S and yields 0.0.  A
present-but-empty duration string, however, is a parse error, not 0.0. -/
theorem C1_parse_duration_amended (h m s : Option (List Char))
    (hh : isDigitRun h = true) (hm : isDigitRun m = true)
    (hs : isDigitRun s = true) :
    parse_duration (durStr h m s) =
      some (((compVal h * 3600 + compVal m * 60 + compVal s : Nat) : Rat)) ∧
    parse_duration ("PT1H2M10S") = some 3730 ∧
    parse_duration ("PT0S") = some 0 ∧
    durationSeconds none = some 0 :=
  ⟨parse_durStr h m s hh hm hs, by decide, by decide, by decide⟩

/-- C1, witness: the amended theorem applied to the components of
PT1H2M10S. -/
theorem C1_parse_duration_amended_witness :
    (isDigitRun (some ['1']) = true ∧ isDigitRun (some ['2']) = true ∧
      isDigitRun (some ['1', '0']) = true) ∧
    parse_duration (durStr (some ['1']) (some ['2']) (some ['1', '0'])) =
      some (((compVal (some ['1']) * 3600 + compVal (some ['2']) * 60 +
        compVal (some ['1', '0']) : Nat) : Rat)) :=
  ⟨⟨by decide, by decide, by decide⟩,
    (C1_parse_duration_amended (some ['1']) (some ['2']) (some ['1', '0'])
      (by decide) (by decide) (by decide)).1⟩

/-- C2, counterexample: the lister itself never truncates — fed a response of
51 items it returns 51 summaries, so the at-most-50 bound does not hold for
every API response, only for responses honouring the requested
maxResults=50. -/
theorem C2_over_fifty_counterexample :
    ¬ (get_channel_videos (List.replicate 51 exItem)).length ≤ 50 := by
  decide

/-- C2, amended: the lister returns one summary per response item, preserving
response order (the id sequence is the response id sequence); whenever the
response honours the request the script sends — at most `searchMaxResults`
(50) items, sorted strictly newest-first by publishedAt — the output has at
most 50 items and is strictly newest-to-oldest by publishedAt. -/
theorem C2_lister_amended (items : List SearchItem)
    (hlen : items.length ≤ searchMaxResults)
    (hsorted : List.Pairwise (fun a b => b.publishedAt < a.publishedAt) items) :
    (get_channel_videos items).map (fun v => v.video_id) =
      items.map (fun item => item.videoId) ∧
    (get_channel_videos items).length ≤ 50 ∧
    List.Pairwise (fun a b => b.publishedAt < a.publishedAt)
      (get_channel_videos items) := by
  refine ⟨?_, ?_, List.pairwise_map.mpr hsorted⟩
  · simp [get_channel_videos]
  · simpa [get_channel_videos] using hlen

/-- C2, witness: the amended theorem applied to a sorted two-item
response. -/
theorem C2_lister_amended_witness :
    (exSortedItems.length ≤ searchMaxResults ∧
      List.Pairwise (fun a b => b.publishedAt < a.publishedAt) exSortedItems) ∧
    (get_channel_videos exSortedItems).length ≤ 50 :=
  ⟨⟨by decide, by simp [exSortedItems]; decide⟩,
    (C2_lister_amended exSortedItems (by decide)
      (by simp [exSortedItems]; decide)).2.1⟩

/-- C3, code bug: the script has no zero-view policy at all.  A row with
views = 0 stays in the dataset and its engagement rate is the IEEE value inf
(or nan for 0/0); that column is exactly the regression target handed to
train_test_split and model.fit.  Evaluated at a one-row dataset with
views = 0 and likes = 1: the target is literally the list containing inf and
the row was not excluded. -/
theorem C3_zero_views_reaches_regression :
    regressionTarget (mergeRecords [exSummary] [zeroViewStats]) = [.inf] ∧
    (mergeRecords [exSummary] [zeroViewStats]).length = 1 := by
  exact ⟨by decide, by decide⟩

/-- C4, code bug: for a video-detail response with no matching item the
script performs the unguarded lookup of the first response item and dies with
a raw IndexError; no `VideoNotFoundError` exists anywhere in the code. -/
theorem C4_missing_video_unguarded :
    get_video_stats { items := [] } = .error .indexError := rfl

/-- C5, counterexample: for a channel with no videos the API search returns
an empty items list, and `get_channel_videos` returns the empty list as an
ordinary value — the function has no failure path and no
`ChannelNotFoundError` exists in the code, refuting the claim that this case
fails with `ChannelNotFoundError`. -/
theorem C5_no_error_on_empty_counterexample :
    get_channel_videos [] = [] := rfl

/-- C5, amended: the lister never fails.  An empty API result (channel with
no videos, or nonexistent channel, for which the search simply matches
nothing) yields the empty sequence, and the output is empty exactly when the
response is empty. -/
theorem C5_empty_response_amended (items : List SearchItem) :
    get_channel_videos items = [] ↔ items = [] := by
  simp [get_channel_videos]

/-- C6, code bug: on the three-row end-to-end scenario of the spec the script
keeps all 3 rows — there is no zero-view exclusion policy — and the
engagement column is [0.15, nan, 0.04] rather than the two rows
[0.15, 0.04] the claim requires. -/
theorem C6_scenario_not_excluded :
    (mergeRecords scenarioSummaries scenarioStats).length = 3 ∧
    engagementColumn (mergeRecords scenarioSummaries scenarioStats) =
      [.finite (3 / 20), .nan, .finite (1 / 25)] := by
  constructor
  · decide
  · simp [scenarioSummaries, scenarioStats, engagementColumn, mergeRecords,
      mkRecord, engagement_rate]
    norm_num

/-- C7, code bug: assembling two empty sequences does yield an empty dataset,
but the script then calls train_test_split on it unconditionally, which
raises inside the regression library (both partitions of 0 rows are empty);
no no-data message or skip exists in the code. -/
theorem C7_empty_dataset_crashes_trainer :
    mergeRecords [] [] = [] ∧
    trainerStep (mergeRecords [] []) = .error .emptySplit :=
  ⟨rfl, rfl⟩

/-- C8, confirmed: for equal-length inputs the positional merge produces one
record per pair — record i combines summary i with stats i — the row count
equals the input length (nothing is excluded, so nothing is subtracted), and
row order matches input order. -/
theorem C8_index_aligned_merge (summaries : List VideoSummary)
    (stats : List VideoStats) (h : summaries.length = stats.length) :
    (mergeRecords summaries stats).length = summaries.length ∧
    ∀ i (hi : i < summaries.length) (hj : i < stats.length)
      (hk : i < (mergeRecords summaries stats).length),
      (mergeRecords summaries stats).get ⟨i, hk⟩ =
        mkRecord (summaries.get ⟨i, hi⟩) (stats.get ⟨i, hj⟩) := by
  constructor
  · simp [mergeRecords, h]
  · intro i hi hj hk
    simp [mergeRecords, List.getElem_zipWith]

/-- C8, witness: the merge theorem applied to concrete one-row inputs. -/
theorem C8_index_aligned_merge_witness :
    [exSummary].length = [exStatsOne].length ∧
    (mergeRecords [exSummary] [exStatsOne]).length = [exSummary].length :=
  ⟨rfl, (C8_index_aligned_merge [exSummary] [exStatsOne] rfl).1⟩

/-- C9, counterexample: the merge step mutates the summary dicts in place —
after `videos[i].update(videos_stats[i])` the dict is no longer the summary
dict the lister produced (four stats keys were added to it), refuting the
claim that no later step modifies a VideoSummary or adds fields to it. -/
theorem C9_fields_added_counterexample :
    dictUpdate (summaryDict exSummary) (statsDict exStatsOne) ≠
      summaryDict exSummary := by
  decide

/-- C9, amended: the update never overwrites the three summary fields — their
values survive the merge unchanged — but it does extend the dict in place
with the four stats keys, so the summary record is not immutable. -/
theorem C9_merge_mutation_amended (v : VideoSummary) (s : VideoStats) :
    dictLookup (dictUpdate (summaryDict v) (statsDict s)) ("video_id") =
      some (.s v.video_id) ∧
    dictLookup (dictUpdate (summaryDict v) (statsDict s)) ("title") =
      some (.s v.title) ∧
    dictLookup (dictUpdate (summaryDict v) (statsDict s)) ("publishedAt") =
      some (.s v.publishedAt) ∧
    dictKeys (dictUpdate (summaryDict v) (statsDict s)) =
      ["video_id", "title", "publishedAt", "views", "likes", "duration",
       "comments"] :=
  ⟨rfl, rfl, rfl, rfl⟩

/-- C10, confirmed: the stats fetcher reads only the first item of a
non-empty response, so two responses agreeing on that first item produce
identical results. -/
theorem C10_stats_depend_on_head (r1 r2 : VideoListResponse)
    (h1 : r1.items ≠ []) (hh : r1.items.head? = r2.items.head?) :
    get_video_stats r1 = get_video_stats r2 := by
  obtain ⟨items1⟩ := r1
  obtain ⟨items2⟩ := r2
  cases items1 with
  | nil => exact absurd rfl h1
  | cons a t1 =>
    cases items2 with
    | nil => simp at hh
    | cons b t2 =>
      simp only [List.head?_cons] at hh
      injection hh with hab
      subst hab
      rfl

/-- C10, witness: the theorem applied to a two-item and a one-item response
sharing their first item. -/
theorem C10_stats_depend_on_head_witness :
    (exRespA.items ≠ [] ∧ exRespA.items.head? = exRespB.items.head?) ∧
    get_video_stats exRespA = get_video_stats exRespB :=
  ⟨⟨by decide, by decide⟩,
    C10_stats_depend_on_head exRespA exRespB (by decide) (by decide)⟩

end PredictiveYoutube
